import Mathlib

/-!
Verification of the beam calculator core (`compute` in src/app/beam/BeamCalc.tsx).

The calculator evaluates a simply supported beam under either a uniformly
distributed load (UDL) over the full span or a single midspan point load,
with inputs in US (kip, in, ksi, in^4) or Metric (kN, mm, GPa, mm^4) units.
`compute` gates on completeness (span, E, I and the active load magnitude all
truthy), normalizes to internal units (m, kN, GPa then kN/m^2, m^4), applies
the closed-form formulas, and reports results in kN, kN·m and mm.

Numbers are modelled as exact rationals, plus an explicit NaN constructor:
`parseFloat` on empty or non-numeric text yields NaN, which — like 0 — is
falsy in JavaScript, so the completeness gate must see it.  After the gate
passes, every quantity that enters arithmetic is a genuine number, so the
arithmetic itself is carried out over ℚ (exact real arithmetic, no rounding).
-/

namespace Beam

/-- Unit system selector (`type Units = "US" | "Metric"`, line 13). -/
inductive UnitSystem where
  | US
  | Metric
deriving DecidableEq

/-- Load case selector (`type LoadType = "UDL" | "Point (midspan)"`, line 15). -/
inductive LoadType where
  | UDL
  | PointMidspan
deriving DecidableEq

/-- JavaScript numeric value as the calculator consumes it: an exact real
(modelled as a rational) or NaN (what `parseFloat` returns on bad text). -/
inductive JSNum where
  | num (q : ℚ)
  | nan
deriving DecidableEq

/-- JavaScript truthiness of a number: `!x` is true exactly when `x` is
0 (or -0) or NaN. -/
def JSNum.falsy : JSNum → Bool
  | .num q => q == 0
  | .nan => true

/-- Numeric payload of a JS number.  Only applied after the completeness gate,
where the value is known to be a genuine number. -/
def JSNum.toQ : JSNum → ℚ
  | .num q => q
  | .nan => 0

/-- The `Inputs` record (lines 17–25). -/
structure Inputs where
  units : UnitSystem
  span : JSNum
  E : JSNum
  I : JSNum
  loadType : LoadType
  w : JSNum
  P : JSNum
deriving DecidableEq

/-- The `Results` record (lines 58–63): reaction and peak shear in kN,
peak moment in kN·m, max deflection in mm. -/
structure Results where
  R : ℚ
  Vmax : ℚ
  Mmax : ℚ
  deflMax : ℚ
deriving DecidableEq

/-- Conversion constant, line 36. -/
def IN_TO_M : ℚ := 0.0254

/-- Conversion constant, line 37. -/
def MM_TO_M : ℚ := 0.001

/-- Conversion constant, line 38. -/
def KIP_TO_KN : ℚ := 4.4482216153

/-- Conversion constant, line 41 (the one `compute` actually uses). -/
def KSI_TO_GPA_CORRECT : ℚ := 0.006894757293168361

/-- Conversion constant, line 46. -/
def M_TO_MM : ℚ := 1000

/-- The completeness gate, line 67:
`if (!span || !E || !I || (loadType === "UDL" ? !w : !P)) return null;`. -/
def incomplete (inputs : Inputs) : Bool :=
  inputs.span.falsy || inputs.E.falsy || inputs.I.falsy ||
    (if inputs.loadType = LoadType.UDL then inputs.w.falsy else inputs.P.falsy)

/-- Normalized internal quantities (`L_m`, `E_GPa`, `I_m4`, `w_kN_per_m`,
`P_kN`, lines 70–74).  The inactive load magnitude keeps its initial 0. -/
structure Normalized where
  L_m : ℚ
  E_GPa : ℚ
  I_m4 : ℚ
  w_kN_per_m : ℚ
  P_kN : ℚ
deriving DecidableEq

/-- The normalization stage of `compute`, lines 69–103: convert the input
fields from their declared unit system to internal units (length m, force kN,
modulus GPa, inertia m⁴, distributed load kN/m). -/
def normalize (inputs : Inputs) : Normalized :=
  let span := inputs.span.toQ
  let E := inputs.E.toQ
  let Iq := inputs.I.toQ
  let w := inputs.w.toQ
  let P := inputs.P.toQ
  if inputs.units = UnitSystem.US then
    let L_m := span * IN_TO_M
    let E_GPa := E * KSI_TO_GPA_CORRECT
    let I_m4 := Iq * IN_TO_M ^ 4
    if inputs.loadType = LoadType.UDL then
      ⟨L_m, E_GPa, I_m4, w * KIP_TO_KN / IN_TO_M, 0⟩
    else
      ⟨L_m, E_GPa, I_m4, 0, P * KIP_TO_KN⟩
  else
    let L_m := span * MM_TO_M
    let E_GPa := E
    let I_m4 := Iq * MM_TO_M ^ 4
    if inputs.loadType = LoadType.UDL then
      ⟨L_m, E_GPa, I_m4, w / MM_TO_M, 0⟩
    else
      ⟨L_m, E_GPa, I_m4, 0, P⟩

/-- GPa → kN/m² fix-up, line 105 (`const E_kN_per_m2 = E_GPa * 1e6`). -/
def E_GPa_to_kN_per_m2 (E_GPa : ℚ) : ℚ := E_GPa * 1e6

/-- The evaluator `compute`, lines 65–132: completeness gate, normalization,
closed-form solver for the active load case, and the m→mm fix-up on the
deflection before it is placed in the result. -/
def compute (inputs : Inputs) : Option Results :=
  if incomplete inputs then none
  else
    let n := normalize inputs
    let E_kN_per_m2 := E_GPa_to_kN_per_m2 n.E_GPa
    if inputs.loadType = LoadType.UDL then
      let R_kN := n.w_kN_per_m * n.L_m / 2
      let Vmax_kN := R_kN
      let Mmax_kN_m := n.w_kN_per_m * n.L_m ^ 2 / 8
      let defl_m := 5 * n.w_kN_per_m * n.L_m ^ 4 / (384 * E_kN_per_m2 * n.I_m4)
      some ⟨R_kN, Vmax_kN, Mmax_kN_m, defl_m * M_TO_MM⟩
    else
      let R_kN := n.P_kN / 2
      let Vmax_kN := R_kN
      let Mmax_kN_m := n.P_kN * n.L_m / 4
      let defl_m := n.P_kN * n.L_m ^ 3 / (48 * E_kN_per_m2 * n.I_m4)
      some ⟨R_kN, Vmax_kN, Mmax_kN_m, defl_m * M_TO_MM⟩

/-- The default US distributed-load scenario (component state, lines 136–144;
also the concrete US scenario of the spec's §8). -/
def demoUS : Inputs :=
  ⟨UnitSystem.US, .num 120, .num 29000, .num 200, LoadType.UDL, .num 0.001, .num 10⟩

/-- The Metric midspan-point scenario of the spec's §8. -/
def demoMetric : Inputs :=
  ⟨UnitSystem.Metric, .num 3000, .num 200, .num 83330000, LoadType.PointMidspan,
    .num 0, .num 10⟩

/-- demoUS with the span zeroed out. -/
def spanZeroUDL : Inputs :=
  ⟨UnitSystem.US, .num 0, .num 29000, .num 200, LoadType.UDL, .num 0.001, .num 10⟩

/-- demoMetric with the span zeroed out. -/
def spanZeroPoint : Inputs :=
  ⟨UnitSystem.Metric, .num 0, .num 200, .num 83330000, LoadType.PointMidspan,
    .num 0.001, .num 10⟩

/-- demoUS with the span field NaN, as `parseFloat("")` would leave it. -/
def spanNanUDL : Inputs :=
  ⟨UnitSystem.US, .nan, .num 29000, .num 200, LoadType.UDL, .num 0.001, .num 10⟩

/-- An all-negative (physically meaningless) but gate-passing input. -/
def negInp : Inputs :=
  ⟨UnitSystem.US, .num (-120), .num (-29000), .num (-200), LoadType.UDL,
    .num (-0.001), .num 10⟩

/-- The exact value of `compute demoUS`. -/
def demoUSResult : Results :=
  ⟨133446648459 / 500000000000, 133446648459 / 500000000000,
    50843173062879 / 250000000000000, 300254959032750000 / 25393391110739073563⟩

/-! Helper lemmas shared by several claims. -/

/-- When the completeness gate fires, `compute` returns the no-result signal. -/
theorem compute_eq_none_of_incomplete (inp : Inputs) (h : incomplete inp = true) :
    compute inp = none := by
  unfold compute
  rw [h]
  rfl

/-- When the completeness gate passes, `compute` returns a populated result. -/
theorem compute_isSome_of_complete (inp : Inputs) (h : incomplete inp = false) :
    ∃ r, compute inp = some r := by
  unfold compute
  rw [h]
  simp only [Bool.false_eq_true, if_false]
  split
  · exact ⟨_, rfl⟩
  · exact ⟨_, rfl⟩

/-- Two gate-passing inputs with the same load kind and the same normalized
quantities evaluate to the same result. -/
theorem compute_eq_of (a b : Inputs) (ha : incomplete a = false)
    (hb : incomplete b = false) (hk : a.loadType = b.loadType)
    (hn : normalize a = normalize b) : compute a = compute b := by
  unfold compute
  rw [ha, hb, hk, hn]

/-- C3: if span, elasticModulus, momentOfInertia, or the magnitude field
matching the active loadKind is zero or absent (falsy), `compute` returns the
explicit no-result signal `none`, never a partial or zero-filled result. -/
theorem C3_incomplete_returns_none (inp : Inputs)
    (h : inp.span.falsy = true ∨ inp.E.falsy = true ∨ inp.I.falsy = true ∨
      (inp.loadType = LoadType.UDL ∧ inp.w.falsy = true) ∨
      (inp.loadType = LoadType.PointMidspan ∧ inp.P.falsy = true)) :
    compute inp = none := by
  apply compute_eq_none_of_incomplete
  unfold incomplete
  rcases h with h | h | h | ⟨hk, h⟩ | ⟨hk, h⟩
  · simp [h]
  · simp [h]
  · simp [h]
  · simp [h, hk]
  · simp [h, hk]

/-- C3 witness: span = 0 with every other field valid yields the no-result
signal, for both load kinds. -/
theorem C3_witness :
    spanZeroUDL.span.falsy = true ∧ spanZeroPoint.span.falsy = true ∧
    compute spanZeroUDL = none ∧ compute spanZeroPoint = none :=
  ⟨by decide, by decide,
    C3_incomplete_returns_none spanZeroUDL (Or.inl (by decide)),
    C3_incomplete_returns_none spanZeroPoint (Or.inl (by decide))⟩

/-- C6: the inactive magnitude field (pointMagnitude under Distributed,
distributedMagnitude under MidspanPoint) affects neither the gate decision nor
any result value; in particular the MidspanPoint gate only inspects span, E, I
and pointMagnitude, so a zero distributed magnitude does not block it. -/
theorem C6_inactive_noninterference :
    ∀ (u : UnitSystem) (s e i w p p' w' : JSNum),
      compute ⟨u, s, e, i, LoadType.UDL, w, p⟩ =
        compute ⟨u, s, e, i, LoadType.UDL, w, p'⟩ ∧
      compute ⟨u, s, e, i, LoadType.PointMidspan, w, p⟩ =
        compute ⟨u, s, e, i, LoadType.PointMidspan, w', p⟩ ∧
      incomplete ⟨u, s, e, i, LoadType.PointMidspan, JSNum.num 0, p⟩ =
        (s.falsy || e.falsy || i.falsy || p.falsy) := by
  intro u s e i w p p' w'
  refine ⟨?_, ?_, rfl⟩ <;> cases u <;> rfl

/-- C8: `compute` is a pure function of its argument — two calls on identical
Input records yield identical outcomes, field for field. -/
theorem C8_deterministic (a b : Inputs) (h : a = b) : compute a = compute b := by
  rw [h]

/-- C8 witness: determinism at the concrete default input. -/
theorem C8_witness : demoUS = demoUS ∧ compute demoUS = compute demoUS :=
  ⟨rfl, C8_deterministic demoUS demoUS rfl⟩

/-- C9: a NaN in span, E, I, or the active load magnitude (what `parseFloat`
yields on an empty or non-numeric field) makes `compute` return the no-result
signal rather than propagating NaN into a result. -/
theorem C9_nan_returns_none (inp : Inputs)
    (h : inp.span = JSNum.nan ∨ inp.E = JSNum.nan ∨ inp.I = JSNum.nan ∨
      (if inp.loadType = LoadType.UDL then inp.w else inp.P) = JSNum.nan) :
    compute inp = none := by
  apply compute_eq_none_of_incomplete
  unfold incomplete
  rcases h with h | h | h | h
  · simp [h, JSNum.falsy]
  · simp [h, JSNum.falsy]
  · simp [h, JSNum.falsy]
  · by_cases hk : inp.loadType = LoadType.UDL
    · rw [if_pos hk] at h
      simp [hk, h, JSNum.falsy]
    · rw [if_neg hk] at h
      simp [hk, h, JSNum.falsy]

/-- C9 witness: NaN span on the otherwise-valid default input yields the
no-result signal. -/
theorem C9_witness :
    spanNanUDL.span = JSNum.nan ∧ compute spanNanUDL = none :=
  ⟨rfl, C9_nan_returns_none spanNanUDL (Or.inl rfl)⟩

/-- C10: the gate is exact and sign-blind — `compute` returns `none` iff span,
E, I, or the active magnitude is falsy (zero or NaN); any input whose required
fields are all nonzero, negative values included, yields a populated result. -/
theorem C10_gate_exact (inp : Inputs) :
    (compute inp = none ↔ incomplete inp = true) ∧
    (incomplete inp = false → ∃ r, compute inp = some r) := by
  constructor
  · constructor
    · intro h
      by_contra hi
      have hf : incomplete inp = false := by
        cases hx : incomplete inp
        · rfl
        · exact absurd hx hi
      obtain ⟨r, hr⟩ := compute_isSome_of_complete inp hf
      rw [hr] at h
      cases h
    · exact compute_eq_none_of_incomplete inp
  · intro hf
    exact compute_isSome_of_complete inp hf

/-- C10 witness: an all-negative but nonzero input passes the gate and
produces a (physically meaningless) populated result. -/
theorem C10_witness : incomplete negInp = false ∧ ∃ r, compute negInp = some r :=
  ⟨by simp [incomplete, negInp, JSNum.falsy]; norm_num,
    (C10_gate_exact negInp).2 (by simp [incomplete, negInp, JSNum.falsy]; norm_num)⟩

/-- C1: a gate-passing Distributed input yields a result whose fields are
exactly the closed-form values over the internal normalized quantities
(w in kN/m, L in m, E in kN/m² obtained as GPa·10⁶, I in m⁴), with the
deflection converted from meters to millimetres by the factor 1000. -/
theorem C1_distributed_formulas (inp : Inputs) (hk : inp.loadType = LoadType.UDL)
    (hg : incomplete inp = false) :
    ∃ res, compute inp = some res ∧
      res.R = (normalize inp).w_kN_per_m * (normalize inp).L_m / 2 ∧
      res.Vmax = res.R ∧
      res.Mmax = (normalize inp).w_kN_per_m * (normalize inp).L_m ^ 2 / 8 ∧
      res.deflMax = 5 * (normalize inp).w_kN_per_m * (normalize inp).L_m ^ 4 /
        (384 * ((normalize inp).E_GPa * 1000000) * (normalize inp).I_m4) * 1000 := by
  unfold compute
  rw [if_neg (by simp [hg]), if_pos hk]
  refine ⟨_, rfl, rfl, rfl, rfl, ?_⟩
  norm_num [E_GPa_to_kN_per_m2, M_TO_MM]

/-- C1 witness: the default US distributed scenario passes the gate and its
result satisfies the closed-form equalities. -/
theorem C1_witness :
    demoUS.loadType = LoadType.UDL ∧ incomplete demoUS = false ∧
    (∃ res, compute demoUS = some res ∧
      res.R = (normalize demoUS).w_kN_per_m * (normalize demoUS).L_m / 2 ∧
      res.Vmax = res.R ∧
      res.Mmax = (normalize demoUS).w_kN_per_m * (normalize demoUS).L_m ^ 2 / 8 ∧
      res.deflMax = 5 * (normalize demoUS).w_kN_per_m * (normalize demoUS).L_m ^ 4 /
        (384 * ((normalize demoUS).E_GPa * 1000000) * (normalize demoUS).I_m4) * 1000) :=
  ⟨rfl, by simp [incomplete, demoUS, JSNum.falsy]; norm_num,
    C1_distributed_formulas demoUS rfl (by simp [incomplete, demoUS, JSNum.falsy]; norm_num)⟩

/-- C2: a gate-passing MidspanPoint input yields a result whose fields are
exactly the closed-form values over the internal normalized quantities
(P in kN, L in m, E in kN/m² obtained as GPa·10⁶, I in m⁴), with the
deflection converted from meters to millimetres by the factor 1000. -/
theorem C2_midspan_formulas (inp : Inputs)
    (hk : inp.loadType = LoadType.PointMidspan) (hg : incomplete inp = false) :
    ∃ res, compute inp = some res ∧
      res.R = (normalize inp).P_kN / 2 ∧
      res.Vmax = res.R ∧
      res.Mmax = (normalize inp).P_kN * (normalize inp).L_m / 4 ∧
      res.deflMax = (normalize inp).P_kN * (normalize inp).L_m ^ 3 /
        (48 * ((normalize inp).E_GPa * 1000000) * (normalize inp).I_m4) * 1000 := by
  unfold compute
  rw [if_neg (by simp [hg]), if_neg (by simp [hk])]
  refine ⟨_, rfl, rfl, rfl, rfl, ?_⟩
  norm_num [E_GPa_to_kN_per_m2, M_TO_MM]

/-- C2 witness: the spec's Metric midspan-point scenario passes the gate and
its result satisfies the closed-form equalities. -/
theorem C2_witness :
    demoMetric.loadType = LoadType.PointMidspan ∧ incomplete demoMetric = false ∧
    (∃ res, compute demoMetric = some res ∧
      res.R = (normalize demoMetric).P_kN / 2 ∧
      res.Vmax = res.R ∧
      res.Mmax = (normalize demoMetric).P_kN * (normalize demoMetric).L_m / 4 ∧
      res.deflMax = (normalize demoMetric).P_kN * (normalize demoMetric).L_m ^ 3 /
        (48 * ((normalize demoMetric).E_GPa * 1000000) * (normalize demoMetric).I_m4) * 1000) :=
  ⟨rfl, by simp [incomplete, demoMetric, JSNum.falsy],
    C2_midspan_formulas demoMetric rfl (by simp [incomplete, demoMetric, JSNum.falsy])⟩

/-- C4: the normalization stage applies exactly the spec's conversion factors —
US span ×0.0254, Metric span ×0.001; US modulus ×0.006894757293168361, Metric
modulus unchanged, then ×1,000,000 to kN/m²; US inertia ×0.0254⁴, Metric
inertia ×0.001⁴; US distributed load ×(4.4482216153/0.0254), Metric distributed
load ÷0.001; US point load ×4.4482216153, Metric point load unchanged — with no
rounding anywhere. -/
theorem C4_conversion_factors :
    (∀ g : ℚ, E_GPa_to_kN_per_m2 g = g * 1000000) ∧
    ∀ s e i w p : JSNum,
      (normalize ⟨UnitSystem.US, s, e, i, LoadType.UDL, w, p⟩).L_m =
          s.toQ * 0.0254 ∧
      (normalize ⟨UnitSystem.US, s, e, i, LoadType.UDL, w, p⟩).E_GPa =
          e.toQ * 0.006894757293168361 ∧
      (normalize ⟨UnitSystem.US, s, e, i, LoadType.UDL, w, p⟩).I_m4 =
          i.toQ * 0.0254 ^ 4 ∧
      (normalize ⟨UnitSystem.US, s, e, i, LoadType.UDL, w, p⟩).w_kN_per_m =
          w.toQ * (4.4482216153 / 0.0254) ∧
      (normalize ⟨UnitSystem.US, s, e, i, LoadType.PointMidspan, w, p⟩).P_kN =
          p.toQ * 4.4482216153 ∧
      (normalize ⟨UnitSystem.Metric, s, e, i, LoadType.UDL, w, p⟩).L_m =
          s.toQ * 0.001 ∧
      (normalize ⟨UnitSystem.Metric, s, e, i, LoadType.UDL, w, p⟩).E_GPa =
          e.toQ ∧
      (normalize ⟨UnitSystem.Metric, s, e, i, LoadType.UDL, w, p⟩).I_m4 =
          i.toQ * 0.001 ^ 4 ∧
      (normalize ⟨UnitSystem.Metric, s, e, i, LoadType.UDL, w, p⟩).w_kN_per_m =
          w.toQ / 0.001 ∧
      (normalize ⟨UnitSystem.Metric, s, e, i, LoadType.PointMidspan, w, p⟩).P_kN =
          p.toQ := by
  constructor
  · intro g
    unfold E_GPa_to_kN_per_m2
    norm_num
  · intro s e i w p
    refine ⟨?_, ?_, ?_, ?_, ?_, ?_, ?_, ?_, ?_, ?_⟩ <;>
      simp [normalize, IN_TO_M, MM_TO_M, KIP_TO_KN, KSI_TO_GPA_CORRECT] <;>
      ring

/-- C7 counterexample: on the spec's concrete US distributed scenario
(span 120 in, E 29000 ksi, I 200 in⁴, w 0.001 kip/in) the code's result is
nowhere near the spec's quoted reaction ≈ 0.6773 kN and moment ≈ 10.16 kN·m. -/
theorem C7_counterexample :
    compute demoUS = some demoUSResult ∧
    |demoUSResult.R - 0.6773| > 0.005 ∧ |demoUSResult.Mmax - 10.16| > 0.005 := by
  refine ⟨?_, ?_, ?_⟩
  · simp [compute, incomplete, normalize, demoUS, demoUSResult, JSNum.falsy, JSNum.toQ,
      IN_TO_M, MM_TO_M, KIP_TO_KN, KSI_TO_GPA_CORRECT, M_TO_MM, E_GPa_to_kN_per_m2,
      Results.mk.injEq]
    norm_num
  · simp only [demoUSResult]
    rw [abs_sub_comm]
    norm_num [abs_of_pos]
  · simp only [demoUSResult]
    rw [abs_sub_comm]
    norm_num [abs_of_pos]

/-- C7 as amended: on the spec's concrete US distributed scenario the code
returns reaction ≈ 0.2669 kN and peak moment ≈ 0.2034 kN·m (exact values
0.266893296918 kN and 0.203372692251516 kN·m). -/
theorem C7_corrected_values :
    compute demoUS = some demoUSResult ∧
    |demoUSResult.R - 0.2669| < 0.00005 ∧ |demoUSResult.Mmax - 0.2034| < 0.00005 := by
  refine ⟨?_, ?_, ?_⟩
  · simp [compute, incomplete, normalize, demoUS, demoUSResult, JSNum.falsy, JSNum.toQ,
      IN_TO_M, MM_TO_M, KIP_TO_KN, KSI_TO_GPA_CORRECT, M_TO_MM, E_GPa_to_kN_per_m2,
      Results.mk.injEq]
    norm_num
  · simp only [demoUSResult]
    norm_num [abs_lt]
  · simp only [demoUSResult]
    norm_num [abs_lt]

/-- C5: a US input and the physically equivalent Metric input (each Metric
field obtained from the US field by the stated conversion factors: span ×25.4,
modulus ×0.006894757293168361, inertia ×25.4⁴, distributed load
×4.4482216153/25.4, point load ×4.4482216153) produce exactly equal results,
for either load kind. -/
theorem C5_unit_invariance (s e i w p : ℚ) (lt : LoadType)
    (hg : incomplete ⟨UnitSystem.US, .num s, .num e, .num i, lt, .num w, .num p⟩ =
      false) :
    compute ⟨UnitSystem.Metric, .num (s * 25.4), .num (e * 0.006894757293168361),
        .num (i * 25.4 ^ 4), lt, .num (w * 4.4482216153 / 25.4),
        .num (p * 4.4482216153)⟩ =
      compute ⟨UnitSystem.US, .num s, .num e, .num i, lt, .num w, .num p⟩ := by
  have hs : s ≠ 0 := by
    intro h
    rw [h] at hg
    simp [incomplete, JSNum.falsy] at hg
  have he : e ≠ 0 := by
    intro h
    rw [h] at hg
    simp [incomplete, JSNum.falsy] at hg
  have hi : i ≠ 0 := by
    intro h
    rw [h] at hg
    simp [incomplete, JSNum.falsy] at hg
  cases lt with
  | UDL =>
      have hw : w ≠ 0 := by
        intro h
        rw [h] at hg
        simp [incomplete, JSNum.falsy] at hg
      refine compute_eq_of _ _ ?_ hg rfl ?_
      · simp [incomplete, JSNum.falsy, mul_eq_zero, div_eq_zero_iff, hs, he, hi, hw]
        norm_num
      · simp [normalize, JSNum.toQ, IN_TO_M, MM_TO_M, KIP_TO_KN, KSI_TO_GPA_CORRECT,
          Normalized.mk.injEq]
        and_intros <;> ring
  | PointMidspan =>
      have hp : p ≠ 0 := by
        intro h
        rw [h] at hg
        simp [incomplete, JSNum.falsy] at hg
      refine compute_eq_of _ _ ?_ hg rfl ?_
      · simp [incomplete, JSNum.falsy, mul_eq_zero, hs, he, hi, hp]
        norm_num
      · simp [normalize, JSNum.toQ, IN_TO_M, MM_TO_M, KIP_TO_KN, KSI_TO_GPA_CORRECT,
          Normalized.mk.injEq]
        and_intros <;> ring

/-- C5 witness: unit-system invariance at the concrete default US scenario. -/
theorem C5_witness :
    incomplete ⟨UnitSystem.US, .num 120, .num 29000, .num 200, LoadType.UDL,
      .num 0.001, .num 10⟩ = false ∧
    compute ⟨UnitSystem.Metric, .num (120 * 25.4), .num (29000 * 0.006894757293168361),
        .num (200 * 25.4 ^ 4), LoadType.UDL, .num (0.001 * 4.4482216153 / 25.4),
        .num (10 * 4.4482216153)⟩ =
      compute ⟨UnitSystem.US, .num 120, .num 29000, .num 200, LoadType.UDL,
        .num 0.001, .num 10⟩ :=
  ⟨by simp [incomplete, JSNum.falsy]; norm_num,
    C5_unit_invariance 120 29000 200 0.001 10 LoadType.UDL
      (by simp [incomplete, JSNum.falsy]; norm_num)⟩

end Beam
